import Mathlib

/-!
Shallow embedding of `src/spool_optimizer.py` (class `DocumentSpoolOptimizer`).

The program is a thin orchestration script around an external PDF engine
(PyMuPDF / `fitz`).  We embed the control flow of `process_document`,
`_log_compression_ratio` and `main` exactly, and abstract every external
call (`fitz.open`, `page.get_pixmap`, `pix.tobytes`, `out_page.insert_image`,
`out_doc.save`, `Path.stat`) by its outcome, recorded in an environment
`Env`: each fallible call either returns a value or raises, and the Python
`try`/`except` is modelled as an `Except` computation whose error branch is
caught by the wrapper.  Side effects that the claims talk about (which
handles were opened/closed, what was serialized to `output_path`, which
progress messages were logged) are threaded explicitly in an `Effects`
record.
-/

/-- A source page: `page.rect.width` and `page.rect.height` (points).
Content is irrelevant to the claims; only geometry is kept. -/
structure Page where
  width : ℚ
  height : ℚ
deriving DecidableEq, Repr

/-- An output page as built by `out_doc.new_page(width=..., height=...)`
followed by `out_page.insert_image(out_page.rect, stream=img_bytes)`:
its geometry and the embedded encoded image stream. -/
structure OutPage where
  width : ℚ
  height : ℚ
  image : List Nat
deriving DecidableEq, Repr

/-- The size report logged by `_log_compression_ratio`: original and
optimized sizes in MB, and the percentage, which is only computed when
`orig_size_mb > 0`. -/
structure SizeReport where
  origMB : ℚ
  optMB : ℚ
  pct : Option ℚ
deriving DecidableEq, Repr

/-- Environment of one invocation: the outcome of every external call the
Python code makes, in program order.  A `none` / `false` outcome means the
corresponding call raises an exception. -/
structure Env where
  /-- Outcome of `input_path.exists()`. -/
  inputExists : Bool
  /-- Value of `self.dpi`, fixed at construction. -/
  dpi : Nat
  /-- Outcome of `fitz.open(input_path)`: the document's pages, or an exception. -/
  srcPages : Option (List Page)
  /-- Whether `fitz.open()` for the fresh output document succeeds. -/
  outOpenOk : Bool
  /-- Whether `page.get_pixmap(dpi=..., alpha=False, colorspace=fitz.csGRAY)`
  succeeds, as a function of the dpi and the page index -/
  renderOk : Nat → Nat → Bool
  /-- Outcome of `pix.tobytes("jpeg")`: the encoded bytes, as a function of the dpi
  and the page index, or an exception -/
  encodeResult : Nat → Nat → Option (List Nat)
  /-- Whether `out_page.insert_image(...)` succeeds at the given page index. -/
  insertOk : Nat → Bool
  /-- Whether `out_doc.save(output_path, garbage=4, deflate=True, clean=True)`
  succeeds -/
  saveOk : Bool
  /-- Outcome of `input_path.stat().st_size`, or an exception. -/
  statInSize : Option Nat
  /-- Outcome of `output_path.stat().st_size`, or an exception. -/
  statOutSize : Option Nat

/-- Observable side effects of one `process_document` invocation. -/
structure Effects where
  /-- Whether `fitz.open(input_path)` returned a handle. -/
  srcOpened : Bool
  /-- Whether `fitz.open()` returned a handle. -/
  outOpened : Bool
  /-- Whether `src_doc.close()` was executed before returning. -/
  srcClosed : Bool
  /-- Whether `out_doc.close()` was executed before returning. -/
  outClosed : Bool
  /-- the document serialized to `output_path`, when `out_doc.save`
  completed; `none` when the output file was not written -/
  savedDoc : Option (List OutPage)
  /-- page counts at which `"Processed %d/%d pages..."` was logged -/
  progressLogs : List Nat
  /-- the size report, when `_log_compression_ratio` completed -/
  report : Option SizeReport
deriving Repr

/-- Result of `process_document`: the returned boolean and the effects. -/
structure RunResult where
  retVal : Bool
  eff : Effects
deriving Repr

/-- The method `_log_compression_ratio` (lines 97–107), given the two `st_size`
values in bytes: computes sizes in MB and, only when `orig_size_mb > 0`,
the percentage `(opt_size_mb / orig_size_mb) * 100`. -/
def log_compression_report (origSize optSize : Nat) : SizeReport :=
  let origMB : ℚ := (origSize : ℚ) / (1024 * 1024)
  let optMB : ℚ := (optSize : ℚ) / (1024 * 1024)
  { origMB := origMB
    optMB := optMB
    pct := if 0 < origMB then some (optMB / origMB * 100) else none }

/-- A file on storage as `_log_compression_ratio` sees it: `stat` metadata
size plus content bytes (the code reads only `st_size`). -/
structure FileState where
  size : Nat
  bytes : List Nat
deriving DecidableEq, Repr

/-- The size-comparison step applied to two files on storage:
`original.stat().st_size` and `optimized.stat().st_size` feed
`_log_compression_ratio`. -/
def sizeReportOfFiles (original optimized : FileState) : SizeReport :=
  log_compression_report original.size optimized.size

/-- One iteration of the per-page loop body (lines 62–68): load page `i`
(returns `p`), render it to a grayscale pixmap, JPEG-encode, create the
output page with the source page's width and height, and embed the image.
Any raising call aborts the iteration with an exception. -/
def processPage (env : Env) (i : Nat) (p : Page) : Except Unit OutPage :=
  if env.renderOk env.dpi i = false then Except.error ()
  else
    match env.encodeResult env.dpi i with
    | none => Except.error ()
    | some img =>
      if env.insertOk i = false then Except.error ()
      else Except.ok { width := p.width, height := p.height, image := img }

/-- The `for page_num in range(total_pages)` loop (lines 61–71), starting
at index `i` with the remaining source pages: returns the output pages
built (or the first exception) together with the progress messages logged
(lines 70–71: after page `i`, log `i + 1` exactly when
`(page_num + 1) % 10 == 0`). -/
def pageLoop (env : Env) (i : Nat) :
    List Page → Except Unit (List OutPage) × List Nat
  | [] => (Except.ok [], [])
  | p :: rest =>
    match processPage env i p with
    | Except.error _ => (Except.error (), [])
    | Except.ok op =>
      let logHere : List Nat := if (i + 1) % 10 = 0 then [i + 1] else []
      match pageLoop env (i + 1) rest with
      | (Except.ok out, logs) => (Except.ok (op :: out), logHere ++ logs)
      | (Except.error _, logs) => (Except.error (), logHere ++ logs)

/-- The `try` block of `process_document` (lines 54–91): open the source
document, open the fresh output document, run the page loop, save with
cleanup options, close both handles, then call `_log_compression_ratio`
(whose `stat` calls may raise).  Returns whether the block completed or
raised, together with the side effects accumulated up to that point.
Note that `src_doc.close()` / `out_doc.close()` (lines 81–82) are executed
only after a successful `save`: there is no `finally` clause. -/
def tryBlock (env : Env) : Except Unit Unit × Effects :=
  match env.srcPages with
  | none =>
    (Except.error (), ⟨false, false, false, false, none, [], none⟩)
  | some pages =>
    if env.outOpenOk = false then
      (Except.error (), ⟨true, false, false, false, none, [], none⟩)
    else
      match pageLoop env 0 pages with
      | (Except.error _, logs) =>
        (Except.error (), ⟨true, true, false, false, none, logs, none⟩)
      | (Except.ok outPages, logs) =>
        if env.saveOk = false then
          (Except.error (), ⟨true, true, false, false, none, logs, none⟩)
        else
          match env.statInSize, env.statOutSize with
          | some a, some b =>
            (Except.ok (),
              ⟨true, true, true, true, some outPages, logs,
                some (log_compression_report a b)⟩)
          | none, _ =>
            (Except.error (), ⟨true, true, true, true, some outPages, logs, none⟩)
          | some _, none =>
            (Except.error (), ⟨true, true, true, true, some outPages, logs, none⟩)

/-- The method `process_document` (lines 43–95): fail fast when `input_path` does not
exist (lines 47–49), otherwise run the `try` block; `except Exception`
(lines 93–95) turns any exception into the return value `False`, and a
completed block returns `True` (line 91). -/
def process_document (env : Env) : RunResult :=
  if env.inputExists = false then
    ⟨false, ⟨false, false, false, false, none, [], none⟩⟩
  else
    match tryBlock env with
    | (Except.ok _, e) => ⟨true, e⟩
    | (Except.error _, e) => ⟨false, e⟩

/-- The entry point `main` (lines 110–125): the process exit code is 1 when
`process_document` returned `False` (`sys.exit(1)`), and 0 otherwise
(normal interpreter exit). -/
def mainExitCode (env : Env) : Nat :=
  if (process_document env).retVal = true then 0 else 1

/-- An A4-sized source page (595 × 842 points). -/
def pageA4 : Page := ⟨595, 842⟩

/-- A concrete invocation in which every external call succeeds: a
one-page document, default 100 dpi, and a 1 MiB input shrunk to 512 KiB. -/
def envAllOk : Env :=
  { inputExists := true
    dpi := 100
    srcPages := some [pageA4]
    outOpenOk := true
    renderOk := fun _ _ => true
    encodeResult := fun _ _ => some [255, 216, 255, 217]
    insertOk := fun _ => true
    saveOk := true
    statInSize := some 1048576
    statOutSize := some 524288 }

/-- The all-succeeding invocation on an empty (zero-page) document. -/
def envEmptyDoc : Env := { envAllOk with srcPages := some [] }

/-- The all-succeeding invocation on a twelve-page document. -/
def envTwelve : Env :=
  { envAllOk with srcPages := some (List.replicate 12 pageA4) }

/-! ## Helper lemmas -/

theorem processPage_ok_geom (env : Env) (i : Nat) (p : Page) (op : OutPage)
    (h : processPage env i p = Except.ok op) :
    op.width = p.width ∧ op.height = p.height := by
  unfold processPage at h
  cases hR : env.renderOk env.dpi i with
  | false => simp [hR] at h
  | true =>
    simp only [hR] at h
    cases hE : env.encodeResult env.dpi i with
    | none => simp [hE] at h
    | some img =>
      simp only [hE] at h
      cases hI : env.insertOk i with
      | false => simp [hI] at h
      | true =>
        simp only [hI] at h
        simp at h
        exact ⟨by rw [← h], by rw [← h]⟩

theorem pageLoop_ok_map_geom (env : Env) (ps : List Page) :
    ∀ (i : Nat) (out : List OutPage) (logs : List Nat),
      pageLoop env i ps = (Except.ok out, logs) →
      out.map (fun o => (o.width, o.height)) =
        ps.map (fun p => (p.width, p.height)) := by
  induction ps with
  | nil =>
    intro i out logs h
    simp [pageLoop] at h
    simp [← h.1]
  | cons p rest ih =>
    intro i out logs h
    unfold pageLoop at h
    cases hp : processPage env i p with
    | error u => rw [hp] at h; simp at h
    | ok op =>
      rw [hp] at h
      rcases hr : pageLoop env (i + 1) rest with ⟨r, logs2⟩
      rw [hr] at h
      cases r with
      | error u => simp at h
      | ok out2 =>
        simp at h
        obtain ⟨hgw, hgh⟩ := processPage_ok_geom env i p op hp
        rw [← h.1]
        simp [hgw, hgh, ih (i + 1) out2 logs2 hr]

theorem pageLoop_ok_length (env : Env) (ps : List Page) (i : Nat)
    (out : List OutPage) (logs : List Nat)
    (h : pageLoop env i ps = (Except.ok out, logs)) :
    out.length = ps.length := by
  have hm := pageLoop_ok_map_geom env ps i out logs h
  have := congrArg List.length hm
  simpa using this

theorem pageLoop_ok_mem_logs (env : Env) (ps : List Page) :
    ∀ (i : Nat) (out : List OutPage) (logs : List Nat),
      pageLoop env i ps = (Except.ok out, logs) →
      ∀ m, m ∈ logs ↔ (i < m ∧ m ≤ i + ps.length ∧ m % 10 = 0) := by
  induction ps with
  | nil =>
    intro i out logs h m
    simp [pageLoop] at h
    rw [h.2]
    simp
    omega
  | cons p rest ih =>
    intro i out logs h m
    unfold pageLoop at h
    cases hp : processPage env i p with
    | error u => rw [hp] at h; simp at h
    | ok op =>
      rw [hp] at h
      rcases hr : pageLoop env (i + 1) rest with ⟨r, logs2⟩
      rw [hr] at h
      cases r with
      | error u => simp at h
      | ok out2 =>
        simp at h
        have ihm := ih (i + 1) out2 logs2 hr m
        rw [← h.2]
        by_cases h10 : (i + 1) % 10 = 0
        · simp [h10, ihm, List.length_cons]
          omega
        · simp [h10, ihm, List.length_cons]
          omega

theorem process_document_missing_input (env : Env)
    (h : env.inputExists = false) :
    process_document env =
      ⟨false, ⟨false, false, false, false, none, [], none⟩⟩ := by
  simp [process_document, h]

theorem process_document_retVal_true_shape (env : Env)
    (h : (process_document env).retVal = true) :
    env.inputExists = true ∧ (tryBlock env).1 = Except.ok () ∧
      (process_document env).eff = (tryBlock env).2 := by
  cases hI : env.inputExists with
  | false => simp [process_document, hI] at h
  | true =>
    rcases ht : tryBlock env with ⟨r, e⟩
    cases r with
    | ok u =>
      cases u
      simp [process_document, hI, ht]
    | error u => simp [process_document, hI, ht] at h

theorem process_document_tryBlock_error (env : Env)
    (h : (tryBlock env).1 = Except.error ()) :
    (process_document env).retVal = false := by
  cases hI : env.inputExists with
  | false => simp [process_document, hI]
  | true =>
    rcases ht : tryBlock env with ⟨r, e⟩
    rw [ht] at h
    simp at h
    rw [h] at ht
    simp [process_document, hI, ht]

theorem process_document_eff_eq_tryBlock (env : Env)
    (h : env.inputExists = true) :
    (process_document env).eff = (tryBlock env).2 := by
  rcases ht : tryBlock env with ⟨r, e⟩
  cases r with
  | ok u => simp [process_document, h, ht]
  | error u => simp [process_document, h, ht]

theorem tryBlock_src_open_fail (env : Env) (h : env.srcPages = none) :
    tryBlock env =
      (Except.error (), ⟨false, false, false, false, none, [], none⟩) := by
  simp [tryBlock, h]

theorem tryBlock_ok_shape (env : Env) (pages : List Page)
    (hsrc : env.srcPages = some pages)
    (hok : (tryBlock env).1 = Except.ok ()) :
    ∃ out logs a b,
      pageLoop env 0 pages = (Except.ok out, logs) ∧
      env.outOpenOk = true ∧ env.saveOk = true ∧
      env.statInSize = some a ∧ env.statOutSize = some b ∧
      (tryBlock env).2 =
        ⟨true, true, true, true, some out, logs,
          some (log_compression_report a b)⟩ := by
  cases hOpen : env.outOpenOk with
  | false => simp [tryBlock, hsrc, hOpen] at hok
  | true =>
    rcases hpl : pageLoop env 0 pages with ⟨r, logs⟩
    cases r with
    | error u => simp [tryBlock, hsrc, hOpen, hpl] at hok
    | ok out =>
      cases hSave : env.saveOk with
      | false => simp [tryBlock, hsrc, hOpen, hpl, hSave] at hok
      | true =>
        cases hA : env.statInSize with
        | none => simp [tryBlock, hsrc, hOpen, hpl, hSave, hA] at hok
        | some a =>
          cases hB : env.statOutSize with
          | none => simp [tryBlock, hsrc, hOpen, hpl, hSave, hA, hB] at hok
          | some b =>
            refine ⟨out, logs, a, b, rfl, rfl, rfl, rfl, rfl, ?_⟩
            simp [tryBlock, hsrc, hOpen, hpl, hSave, hA, hB]

/-- Two invocation environments that agree on everything except the
outcomes of the two `stat` calls made by `_log_compression_ratio`. -/
def agreesOffReport (e e' : Env) : Prop :=
  e.inputExists = e'.inputExists ∧ e.dpi = e'.dpi ∧
  e.srcPages = e'.srcPages ∧ e.outOpenOk = e'.outOpenOk ∧
  e.renderOk = e'.renderOk ∧ e.encodeResult = e'.encodeResult ∧
  e.insertOk = e'.insertOk ∧ e.saveOk = e'.saveOk

theorem processPage_congr (e e' : Env) (hd : e.dpi = e'.dpi)
    (hr : e.renderOk = e'.renderOk) (he : e.encodeResult = e'.encodeResult)
    (hi : e.insertOk = e'.insertOk) (i : Nat) (p : Page) :
    processPage e i p = processPage e' i p := by
  unfold processPage
  rw [hd, hr, he, hi]

theorem pageLoop_congr (e e' : Env) (hd : e.dpi = e'.dpi)
    (hr : e.renderOk = e'.renderOk) (he : e.encodeResult = e'.encodeResult)
    (hi : e.insertOk = e'.insertOk) (ps : List Page) :
    ∀ i, pageLoop e i ps = pageLoop e' i ps := by
  induction ps with
  | nil => intro i; simp [pageLoop]
  | cons p rest ih =>
    intro i
    unfold pageLoop
    rw [processPage_congr e e' hd hr he hi i p, ih (i + 1)]

theorem tryBlock_fst_congr (e e' : Env) (hagree : agreesOffReport e e')
    (hIn : e.statInSize.isSome = e'.statInSize.isSome)
    (hOut : e.statOutSize.isSome = e'.statOutSize.isSome) :
    (tryBlock e).1 = (tryBlock e').1 := by
  obtain ⟨h1, h2, h3, h4, h5, h6, h7, h8⟩ := hagree
  unfold tryBlock
  rw [h3]
  cases hsp : e'.srcPages with
  | none => simp
  | some pages =>
    simp only
    rw [h4, pageLoop_congr e e' h2 h5 h6 h7 pages 0]
    rcases hpl : pageLoop e' 0 pages with ⟨r, logs⟩
    cases r with
    | error u => simp
    | ok out =>
      simp only
      rw [h8]
      cases hsv : e'.saveOk with
      | false => simp
      | true =>
        simp only [Bool.true_eq_false, if_false]
        cases hA : e.statInSize with
        | none =>
          rw [hA] at hIn
          simp at hIn
          cases hA2 : e'.statInSize with
          | none => simp
          | some a' => rw [hA2] at hIn; simp at hIn
        | some a =>
          rw [hA] at hIn
          simp at hIn
          cases hA2 : e'.statInSize with
          | none => rw [hA2] at hIn; simp at hIn
          | some a' =>
            cases hB : e.statOutSize with
            | none =>
              rw [hB] at hOut
              simp at hOut
              cases hB2 : e'.statOutSize with
              | none => simp
              | some b' => rw [hB2] at hOut; simp at hOut
            | some b =>
              rw [hB] at hOut
              simp at hOut
              cases hB2 : e'.statOutSize with
              | none => rw [hB2] at hOut; simp at hOut
              | some b' => split <;> rfl

theorem process_document_success (env : Env) (hI : env.inputExists = true)
    (hok : (tryBlock env).1 = Except.ok ()) :
    (process_document env).retVal = true := by
  rcases ht : tryBlock env with ⟨r, e⟩
  rw [ht] at hok
  cases r with
  | ok u => cases u; simp [process_document, hI, ht]
  | error u => simp at hok

/-! ## Claims -/

/-- C1: the claim states that whenever both documents were successfully
opened, both handles are closed on every exit path, including when
rendering, encoding or `save` raises.  The code contradicts this (and its
own stated intent of unconditional release): `src_doc.close()` and
`out_doc.close()` sit after `out_doc.save(...)` inside the `try` block,
with no `finally`, so on the exception path nothing is closed.  This
theorem evaluates the embedded code at a failing input — every call
succeeds except `out_doc.save`, which raises — and shows the invocation
returns `False` with both handles opened and neither closed. -/
theorem C1_handles_leak_on_save_failure :
    (process_document { envAllOk with saveOk := false }).retVal = false ∧
    (process_document { envAllOk with saveOk := false }).eff.srcOpened = true ∧
    (process_document { envAllOk with saveOk := false }).eff.outOpened = true ∧
    (process_document { envAllOk with saveOk := false }).eff.srcClosed = false ∧
    (process_document { envAllOk with saveOk := false }).eff.outClosed = false :=
  ⟨rfl, rfl, rfl, rfl, rfl⟩

/-- C2: on every invocation in which `process_document` returns `True`,
the document serialized to `output_path` has exactly as many pages as the
opened source document, for any page count including zero. -/
theorem C2_page_count_preserved (env : Env) (pages : List Page)
    (hsrc : env.srcPages = some pages)
    (hret : (process_document env).retVal = true) :
    ∃ out, (process_document env).eff.savedDoc = some out ∧
      out.length = pages.length := by
  obtain ⟨hI, hok, heff⟩ := process_document_retVal_true_shape env hret
  obtain ⟨out, logs, a, b, hpl, _, _, _, _, heq⟩ :=
    tryBlock_ok_shape env pages hsrc hok
  refine ⟨out, ?_, pageLoop_ok_length env pages 0 out logs hpl⟩
  rw [heff, heq]

/-- Witness for C2: the all-succeeding runs on a zero-page document and on
a one-page document yield outputs with zero and one page respectively. -/
theorem C2_page_count_preserved_witness :
    (∃ out, (process_document envEmptyDoc).eff.savedDoc = some out ∧
      out.length = 0) ∧
    (∃ out, (process_document envAllOk).eff.savedDoc = some out ∧
      out.length = 1) :=
  ⟨C2_page_count_preserved envEmptyDoc [] rfl rfl,
   C2_page_count_preserved envAllOk [pageA4] rfl rfl⟩

/-- C3: on every invocation in which `process_document` returns `True`
(whatever the dpi the optimizer was constructed with), output page `i` is
created with exactly the width and height of source page `i`, for every
index `i`; the dpi value is a field of `env` that the quantifier ranges
over, so the page geometry is independent of it. -/
theorem C3_geometry_preserved (env : Env) (pages : List Page)
    (hsrc : env.srcPages = some pages)
    (hret : (process_document env).retVal = true) :
    ∃ out, (process_document env).eff.savedDoc = some out ∧
      ∀ i : Nat, out[i]?.map (fun o => (o.width, o.height)) =
        pages[i]?.map (fun p => (p.width, p.height)) := by
  obtain ⟨hI, hok, heff⟩ := process_document_retVal_true_shape env hret
  obtain ⟨out, logs, a, b, hpl, _, _, _, _, heq⟩ :=
    tryBlock_ok_shape env pages hsrc hok
  have hmap := pageLoop_ok_map_geom env pages 0 out logs hpl
  refine ⟨out, by rw [heff, heq], fun i => ?_⟩
  have := congrArg (fun l => l[i]?) hmap
  simpa using this

/-- Witness for C3: the one-page all-succeeding run preserves the A4 page
geometry at every index. -/
theorem C3_geometry_preserved_witness :
    ∃ out, (process_document envAllOk).eff.savedDoc = some out ∧
      ∀ i : Nat, out[i]?.map (fun o => (o.width, o.height)) =
        [pageA4][i]?.map (fun p => (p.width, p.height)) :=
  C3_geometry_preserved envAllOk [pageA4] rfl rfl

/-- C4: when `input_path` does not exist, `process_document` returns
`False` before opening any document — neither handle is opened, nothing is
processed, and nothing is written to `output_path`. -/
theorem C4_missing_input_short_circuit (env : Env)
    (h : env.inputExists = false) :
    (process_document env).retVal = false ∧
    (process_document env).eff.srcOpened = false ∧
    (process_document env).eff.outOpened = false ∧
    (process_document env).eff.savedDoc = none ∧
    (process_document env).eff.progressLogs = [] := by
  rw [process_document_missing_input env h]
  exact ⟨rfl, rfl, rfl, rfl, rfl⟩

/-- Witness for C4: an otherwise all-succeeding invocation with a missing
input file fails fast with no side effects. -/
theorem C4_missing_input_short_circuit_witness :
    (process_document { envAllOk with inputExists := false }).retVal = false ∧
    (process_document { envAllOk with inputExists := false }).eff.srcOpened
      = false ∧
    (process_document { envAllOk with inputExists := false }).eff.outOpened
      = false ∧
    (process_document { envAllOk with inputExists := false }).eff.savedDoc
      = none ∧
    (process_document { envAllOk with inputExists := false }).eff.progressLogs
      = [] :=
  C4_missing_input_short_circuit { envAllOk with inputExists := false } rfl

/-- C5: every exception raised inside the `try` block (open, render,
encode, save, or the stat calls of the size report) is caught and surfaced
to the caller only as the return value `False`; conversely a `False`
return can only come from the missing-input check or from such a caught
exception, so `process_document` never propagates an exception. -/
theorem C5_exceptions_become_false (env : Env) :
    ((tryBlock env).1 = Except.error () →
      (process_document env).retVal = false) ∧
    ((process_document env).retVal = false →
      env.inputExists = false ∨ (tryBlock env).1 = Except.error ()) := by
  constructor
  · exact process_document_tryBlock_error env
  · intro hf
    cases hI : env.inputExists with
    | false => exact Or.inl rfl
    | true =>
      rcases ht : tryBlock env with ⟨r, e⟩
      cases r with
      | ok u =>
        cases u
        have := process_document_success env hI (by rw [ht])
        rw [this] at hf
        simp at hf
      | error u =>
        cases u
        exact Or.inr rfl

/-- Witness for C5: when `out_doc.save` raises, the exception is caught
and the call returns `False`. -/
theorem C5_exceptions_become_false_witness :
    (process_document { envAllOk with saveOk := false }).retVal = false :=
  (C5_exceptions_become_false { envAllOk with saveOk := false }).1 rfl

/-- C6 counterexample: the claim that the returned value never depends on
the outcome of the size-report step is false.  `_log_compression_ratio` is
called inside the `try` block before `return True`, so two invocations
that agree on everything except the report-step `stat` outcomes can return
different values: with both `stat` calls succeeding the call returns
`True`, while with `input_path.stat()` raising it returns `False`. -/
theorem C6_report_affects_result_counterexample :
    ¬ (∀ e e' : Env, agreesOffReport e e' →
        (process_document e).retVal = (process_document e').retVal) := by
  intro hall
  have h := hall envAllOk { envAllOk with statInSize := none }
    ⟨rfl, rfl, rfl, rfl, rfl, rfl, rfl, rfl⟩
  have h1 : (process_document envAllOk).retVal = true := rfl
  have h2 : (process_document
      { envAllOk with statInSize := none }).retVal = false := rfl
  rw [h1, h2] at h
  exact Bool.noConfusion h

/-- C6 amended: the size-comparison report is observational in its
computed values — the return value of `process_document` depends on the
report step only through whether each of its two `stat` calls raises, not
through the sizes it reads or logs.  (When a `stat` call does raise, the
exception is caught and the call returns `False` even though the output
was already saved.) -/
theorem C6_report_values_observational (e e' : Env)
    (hagree : agreesOffReport e e')
    (hIn : e.statInSize.isSome = e'.statInSize.isSome)
    (hOut : e.statOutSize.isSome = e'.statOutSize.isSome) :
    (process_document e).retVal = (process_document e').retVal := by
  have h1 := hagree.1
  have hfst := tryBlock_fst_congr e e' hagree hIn hOut
  cases hI : e'.inputExists with
  | false =>
    rw [process_document_missing_input e (by rw [h1, hI]),
      process_document_missing_input e' hI]
  | true =>
    rcases ht : tryBlock e with ⟨r, ef⟩
    rcases ht' : tryBlock e' with ⟨r', ef'⟩
    rw [ht, ht'] at hfst
    simp at hfst
    subst hfst
    cases r with
    | ok u =>
      cases u
      rw [process_document_success e (by rw [h1, hI]) (by rw [ht]),
        process_document_success e' hI (by rw [ht'])]
    | error u =>
      cases u
      rw [process_document_tryBlock_error e (by rw [ht]),
        process_document_tryBlock_error e' (by rw [ht'])]

/-- Witness for the amended C6: two all-succeeding invocations whose
report steps read entirely different file sizes return the same value. -/
theorem C6_report_values_observational_witness :
    (process_document envAllOk).retVal =
      (process_document
        { envAllOk with statInSize := some 7, statOutSize := some 3 }).retVal :=
  C6_report_values_observational envAllOk
    { envAllOk with statInSize := some 7, statOutSize := some 3 }
    ⟨rfl, rfl, rfl, rfl, rfl, rfl, rfl, rfl⟩ rfl rfl

/-- C7: the CLI exit code is 0 when `process_document` returns `True`, and
1 both when the input file is missing and when any caught processing
exception makes `process_document` return `False`. -/
theorem C7_exit_code (env : Env) :
    ((process_document env).retVal = true → mainExitCode env = 0) ∧
    (env.inputExists = false → mainExitCode env = 1) ∧
    ((tryBlock env).1 = Except.error () → mainExitCode env = 1) := by
  refine ⟨?_, ?_, ?_⟩
  · intro h
    simp [mainExitCode, h]
  · intro h
    simp [mainExitCode, process_document_missing_input env h]
  · intro h
    simp [mainExitCode, process_document_tryBlock_error env h]

/-- Witness for C7: exit code 0 on an all-succeeding run, 1 on a missing
input, and 1 on a failing `save`. -/
theorem C7_exit_code_witness :
    mainExitCode envAllOk = 0 ∧
    mainExitCode { envAllOk with inputExists := false } = 1 ∧
    mainExitCode { envAllOk with saveOk := false } = 1 :=
  ⟨(C7_exit_code envAllOk).1 rfl,
   (C7_exit_code { envAllOk with inputExists := false }).2.1 rfl,
   (C7_exit_code { envAllOk with saveOk := false }).2.2 rfl⟩

/-- C8: the size-comparison step is a pure function of the two files'
sizes on storage — two runs on file pairs with identical sizes (whatever
their contents) produce identical reported sizes and identical percentage
output. -/
theorem C8_size_report_pure (f1 f2 g1 g2 : FileState)
    (h1 : f1.size = g1.size) (h2 : f2.size = g2.size) :
    sizeReportOfFiles f1 f2 = sizeReportOfFiles g1 g2 := by
  unfold sizeReportOfFiles
  rw [h1, h2]

/-- Witness for C8: two file pairs with equal sizes but different contents
yield the same report. -/
theorem C8_size_report_pure_witness :
    sizeReportOfFiles ⟨2097152, [1, 2, 3]⟩ ⟨1048576, [4]⟩ =
      sizeReportOfFiles ⟨2097152, [9]⟩ ⟨1048576, []⟩ :=
  C8_size_report_pure ⟨2097152, [1, 2, 3]⟩ ⟨1048576, [4]⟩
    ⟨2097152, [9]⟩ ⟨1048576, []⟩ rfl rfl

/-- C9: on a successful run, for every 0-based page index `i` of the
source document, the progress message for page `i` (reporting `i + 1`
pages processed) is in the log exactly when `(i + 1) % 10 == 0`. -/
theorem C9_progress_every_ten_pages (env : Env) (pages : List Page)
    (hsrc : env.srcPages = some pages)
    (hret : (process_document env).retVal = true)
    (i : Nat) (hi : i < pages.length) :
    ((i + 1) ∈ (process_document env).eff.progressLogs ↔
      (i + 1) % 10 = 0) := by
  obtain ⟨hI, hok, heff⟩ := process_document_retVal_true_shape env hret
  obtain ⟨out, logs, a, b, hpl, _, _, _, _, heq⟩ :=
    tryBlock_ok_shape env pages hsrc hok
  have hm := pageLoop_ok_mem_logs env pages 0 out logs hpl (i + 1)
  rw [heff, heq]
  exact ⟨fun hmem => (hm.mp hmem).2.2,
    fun h10 => hm.mpr ⟨Nat.succ_pos i, by omega, h10⟩⟩

/-- Witness for C9: on the twelve-page all-succeeding run, the progress
message is logged after page index 9 (10 pages processed) and not after
page index 4 (5 pages processed). -/
theorem C9_progress_every_ten_pages_witness :
    ((9 + 1) ∈ (process_document envTwelve).eff.progressLogs ↔
      (9 + 1) % 10 = 0) ∧
    ((4 + 1) ∈ (process_document envTwelve).eff.progressLogs ↔
      (4 + 1) % 10 = 0) :=
  ⟨C9_progress_every_ten_pages envTwelve (List.replicate 12 pageA4) rfl rfl 9
      (by decide),
   C9_progress_every_ten_pages envTwelve (List.replicate 12 pageA4) rfl rfl 4
      (by decide)⟩

/-- C10: the percentage is computed only when the original size is
strictly positive — `pct` is present exactly when the original file has
nonzero size, and whenever the division is performed its divisor
`orig_size_mb` is nonzero, so the step never divides by zero. -/
theorem C10_pct_guarded (a b : Nat) :
    ((log_compression_report a b).pct ≠ none ↔ 0 < a) ∧
    (∀ q : ℚ, (log_compression_report a b).pct = some q →
      (a : ℚ) / (1024 * 1024) ≠ 0 ∧
      q = ((b : ℚ) / (1024 * 1024)) / ((a : ℚ) / (1024 * 1024)) * 100) := by
  have hpos : ((0 : ℚ) < (a : ℚ) / (1024 * 1024)) ↔ 0 < a := by
    rw [lt_div_iff₀ (by norm_num : (0 : ℚ) < 1024 * 1024)]
    simp
  by_cases ha : 0 < a
  · have h' : (0 : ℚ) < (a : ℚ) / (1024 * 1024) := hpos.mpr ha
    constructor
    · simp [log_compression_report, h', ha]
    · intro q hq
      simp [log_compression_report, h'] at hq
      exact ⟨ne_of_gt h', hq.symm⟩
  · have h' : ¬ (0 : ℚ) < (a : ℚ) / (1024 * 1024) := fun hc => ha (hpos.mp hc)
    constructor
    · simp [log_compression_report, h', ha]
    · intro q hq
      simp [log_compression_report, h'] at hq

/-- Witness for C10: a 1 MiB original and 512 KiB optimized file divide by
the nonzero original size and report 50 percent. -/
theorem C10_pct_guarded_witness :
    ((1048576 : Nat) : ℚ) / (1024 * 1024) ≠ 0 ∧
    (50 : ℚ) = (((524288 : Nat) : ℚ) / (1024 * 1024)) /
      (((1048576 : Nat) : ℚ) / (1024 * 1024)) * 100 :=
  (C10_pct_guarded 1048576 524288).2 50 (by norm_num [log_compression_report])
